import Mathlib

/-!
Shallow embedding of the RetroNexus emulator core
(`src/GameBoyEmulator.cpp`, `src/include/GameBoyEmulator.hpp`,
`src/unnamed/part_003` = `SPU.cpp`), with theorems settling the
frozen specification claims.

Machine integers are modelled as `Nat` with explicit `% 2 ^ 8` /
`% 2 ^ 16` at the points where the C++ types truncate.
-/

namespace GB

/-- CPU register file, from the anonymous struct in
`GameBoyEmulator.hpp` (`uint8_t a, f, b, c, d, e, h, l;
uint16_t sp; uint16_t pc;`).  All fields are bytes except `sp`/`pc`
which are 16-bit words. -/
structure Regs where
  a : Nat
  f : Nat
  b : Nat
  c : Nat
  d : Nat
  e : Nat
  h : Nat
  l : Nat
  sp : Nat
  pc : Nat
  deriving Repr, DecidableEq

/-- 16-bit `bc` view of the pair, as used by `registers.bc` in
`GameBoyEmulator.cpp`. -/
def Regs.bc (r : Regs) : Nat := r.b * 2 ^ 8 + r.c

/-- 16-bit `de` view of the pair. -/
def Regs.de (r : Regs) : Nat := r.d * 2 ^ 8 + r.e

/-- 16-bit `hl` view of the pair. -/
def Regs.hl (r : Regs) : Nat := r.h * 2 ^ 8 + r.l

/-- Assign the `bc` pair (16-bit store: high byte to `b`, low to `c`). -/
def Regs.setBC (r : Regs) (v : Nat) : Regs :=
  { r with b := v % 2 ^ 16 / 2 ^ 8, c := v % 2 ^ 8 }

/-- Assign the `de` pair. -/
def Regs.setDE (r : Regs) (v : Nat) : Regs :=
  { r with d := v % 2 ^ 16 / 2 ^ 8, e := v % 2 ^ 8 }

/-- Assign the `hl` pair. -/
def Regs.setHL (r : Regs) (v : Nat) : Regs :=
  { r with h := v % 2 ^ 16 / 2 ^ 8, l := v % 2 ^ 8 }

/-- GPU register record from `GameBoyEmulator.hpp`
(`uint8_t lcdc; uint8_t stat; uint8_t ly;`). -/
structure Gpu where
  lcdc : Nat
  stat : Nat
  ly : Nat
  deriving Repr, DecidableEq

/-- Graphics register block used by `GameBoyEmulator.cpp`
(`graphics.ly`, `graphics.lyc`, `graphics.stat`, scroll, window and
palette registers).  The declaring header is not part of the sources;
the field list is exactly the set of members the `.cpp` file uses. -/
structure Graphics where
  ly : Nat
  lyc : Nat
  stat : Nat
  scx : Nat
  scy : Nat
  wx : Nat
  wy : Nat
  bgp : Nat
  obp0 : Nat
  obp1 : Nat
  deriving Repr, DecidableEq

/-- Interrupt register pair used by `GameBoyEmulator.cpp`
(`interrupts.flags`, `interrupts.enable`). -/
structure Interrupts where
  flags : Nat
  enable : Nat
  deriving Repr, DecidableEq

/-- OAM DMA bookkeeping set by `processDMA`. -/
structure Dma where
  active : Bool
  source : Nat
  destination : Nat
  length : Nat
  remaining : Nat
  deriving Repr, DecidableEq

/-- Joypad source lines read by `updateJoypad`
(`input.buttons`, `input.directions`). -/
structure InputState where
  buttons : Nat
  directions : Nat
  deriving Repr, DecidableEq

/-- One entry of the `sprites` array filled by
`findSpritesForScanline` (`int y; int x; uint8_t tile;
uint8_t attributes;` — `y`/`x` are C `int`s and may be negative). -/
structure Sprite where
  y : Int
  x : Int
  tile : Nat
  attributes : Nat
  deriving Repr, DecidableEq

/-- PPU mode enumeration (`enum class PPUMode` in
`src/unnamed/part_002`). -/
inductive PPUMode where
  | HBLANK
  | VBLANK
  | OAM_SCAN
  | PIXEL_TRANSFER
  deriving Repr, DecidableEq

/-- The full emulator state.  Byte-array members are modelled as
functions from index to stored byte; the `% 2 ^ 8` truncation of the
`uint8_t` cells is applied at each access.  The class in the sources
carries both the flat 64KB `memory` array (used by the `uint32_t`
overloads, `reset`, `loadROM`, `saveState`/`loadState`) and the banked
region arrays (used by the `uint16_t` overloads); both are modelled. -/
structure St where
  memory : Nat → Nat
  cartridgeROM : List Nat
  registers : Regs
  gpu : Gpu
  romBank0 : Nat → Nat
  romBankN : Nat → Nat
  vram : Nat → Nat
  externalRam : Nat → Nat
  wramBank0 : Nat → Nat
  wramBankN : Nat → Nat
  oam : Nat → Nat
  ioRegs : Nat → Nat
  hram : Nat → Nat
  ramEnabled : Bool
  interrupts : Interrupts
  graphics : Graphics
  dma : Dma
  inputPad : InputState
  timerEnabled : Bool
  timerClock : Nat
  ppuEnabled : Bool
  ppuWindowEnabled : Bool
  ppuSpritesEnabled : Bool
  ppuBackgroundEnabled : Bool
  ppuMode : PPUMode
  ppuCycles : Nat
  frameBuffer : Nat → Nat
  sprites : Nat → Sprite
  spriteCount : Nat

/-! ### Flag accessors

Modelled from the spec: the bodies of `get/setZeroFlag`,
`get/setSubtractFlag`, `get/setHalfCarryFlag` and `get/setCarryFlag`
are not among the source files (only their virtual declarations in
`Emulator.hpp`).  The spec states the CPU keeps "a 4-bit flag set
(zero, subtract, half-carry, carry)" and that "the low nibble of the
flags register (F) beyond the 4 defined flag bits is always zero", so
the flags are the high nibble of `F`: zero = bit 7, subtract = bit 6,
half-carry = bit 5, carry = bit 4. -/

/-- Modelled from the spec: zero flag is bit 7 of `F`. -/
def getZeroFlag (s : St) : Bool := s.registers.f.testBit 7

/-- Modelled from the spec: subtract flag is bit 6 of `F`. -/
def getSubtractFlag (s : St) : Bool := s.registers.f.testBit 6

/-- Modelled from the spec: half-carry flag is bit 5 of `F`. -/
def getHalfCarryFlag (s : St) : Bool := s.registers.f.testBit 5

/-- Modelled from the spec: carry flag is bit 4 of `F`. -/
def getCarryFlag (s : St) : Bool := s.registers.f.testBit 4

/-- Modelled from the spec: store bit 7 of `F`. -/
def setZeroFlag (b : Bool) (s : St) : St :=
  { s with registers :=
      { s.registers with
        f := (if b then s.registers.f ||| 2 ^ 7
              else s.registers.f &&& 0x7F) % 2 ^ 8 } }

/-- Modelled from the spec: store bit 6 of `F`. -/
def setSubtractFlag (b : Bool) (s : St) : St :=
  { s with registers :=
      { s.registers with
        f := (if b then s.registers.f ||| 2 ^ 6
              else s.registers.f &&& 0xBF) % 2 ^ 8 } }

/-- Modelled from the spec: store bit 5 of `F`. -/
def setHalfCarryFlag (b : Bool) (s : St) : St :=
  { s with registers :=
      { s.registers with
        f := (if b then s.registers.f ||| 2 ^ 5
              else s.registers.f &&& 0xDF) % 2 ^ 8 } }

/-- Modelled from the spec: store bit 4 of `F`. -/
def setCarryFlag (b : Bool) (s : St) : St :=
  { s with registers :=
      { s.registers with
        f := (if b then s.registers.f ||| 2 ^ 4
              else s.registers.f &&& 0xEF) % 2 ^ 8 } }

/-! ### 8-bit/16-bit ALU helpers (`GameBoyEmulator.cpp` lines 407–489) -/

/-- `GameBoyEmulator::inc`: 8-bit increment.  Returns the result byte
and the state with updated flags. -/
def inc (s : St) (value : Nat) : Nat × St :=
  let result := (value + 1) % 2 ^ 8
  let s := setZeroFlag (result == 0) s
  let s := setSubtractFlag false s
  let s := setHalfCarryFlag ((value &&& 0x0F) == 0x0F) s
  (result, s)

/-- `GameBoyEmulator::dec`: 8-bit decrement. -/
def dec (s : St) (value : Nat) : Nat × St :=
  let result := (value + 2 ^ 8 - 1) % 2 ^ 8
  let s := setZeroFlag (result == 0) s
  let s := setSubtractFlag true s
  let s := setHalfCarryFlag ((value &&& 0x0F) == 0) s
  (result, s)

/-- `GameBoyEmulator::rlc`: rotate left circular. -/
def rlc (s : St) (value : Nat) : Nat × St :=
  let result := ((value <<< 1) ||| (value >>> 7)) % 2 ^ 8
  let s := setZeroFlag (result == 0) s
  let s := setSubtractFlag false s
  let s := setHalfCarryFlag false s
  let s := setCarryFlag (value &&& 0x80 != 0) s
  (result, s)

/-- `GameBoyEmulator::rrc`: rotate right circular. -/
def rrc (s : St) (value : Nat) : Nat × St :=
  let result := ((value >>> 1) ||| (value <<< 7)) % 2 ^ 8
  let s := setZeroFlag (result == 0) s
  let s := setSubtractFlag false s
  let s := setHalfCarryFlag false s
  let s := setCarryFlag (value &&& 0x01 != 0) s
  (result, s)

/-- `GameBoyEmulator::rl`: rotate left through carry. -/
def rl (s : St) (value : Nat) : Nat × St :=
  let result := ((value <<< 1) ||| (if getCarryFlag s then 1 else 0)) % 2 ^ 8
  let s := setZeroFlag (result == 0) s
  let s := setSubtractFlag false s
  let s := setHalfCarryFlag false s
  let s := setCarryFlag (value &&& 0x80 != 0) s
  (result, s)

/-- `GameBoyEmulator::rr`: rotate right through carry. -/
def rr (s : St) (value : Nat) : Nat × St :=
  let result := ((value >>> 1) ||| (if getCarryFlag s then 0x80 else 0)) % 2 ^ 8
  let s := setZeroFlag (result == 0) s
  let s := setSubtractFlag false s
  let s := setHalfCarryFlag false s
  let s := setCarryFlag (value &&& 0x01 != 0) s
  (result, s)

/-- `GameBoyEmulator::add16`: 16-bit addition.  The C++ computes the
sum in `uint32_t` and truncates the return to `uint16_t`. -/
def add16 (s : St) (a b : Nat) : Nat × St :=
  let result := a + b
  let s := setSubtractFlag false s
  let s := setHalfCarryFlag (((a &&& 0x0FFF) + (b &&& 0x0FFF)) > 0x0FFF) s
  let s := setCarryFlag (result > 0xFFFF) s
  (result % 2 ^ 16, s)

/-- `GameBoyEmulator::daa`: decimal adjust of the accumulator
(all intermediate arithmetic is on a `uint8_t` local). -/
def daa (s : St) : St :=
  let a := s.registers.a
  let step : Nat × St :=
    if !getSubtractFlag s then
      let (a, s) :=
        if getCarryFlag s || a > 0x99 then
          ((a + 0x60) % 2 ^ 8, setCarryFlag true s)
        else (a, s)
      if getHalfCarryFlag s || (a &&& 0x0F) > 0x09 then
        ((a + 0x06) % 2 ^ 8, s)
      else (a, s)
    else
      let a := if getCarryFlag s then (a + 2 ^ 8 - 0x60) % 2 ^ 8 else a
      let a := if getHalfCarryFlag s then (a + 2 ^ 8 - 0x06) % 2 ^ 8 else a
      (a, s)
  let a := step.1
  let s := step.2
  let s := setZeroFlag (a == 0) s
  let s := setHalfCarryFlag false s
  { s with registers := { s.registers with a := a } }

/-! ### Memory bus (`GameBoyEmulator.cpp` lines 492–634) -/

/-- Pointwise update of a byte-array function. -/
def upd (f : Nat → Nat) (i v : Nat) : Nat → Nat :=
  fun j => if j = i then v else f j

/-- Store a byte into the I/O register file (`io[address] = value`). -/
def ioStore (s : St) (i v : Nat) : St :=
  { s with ioRegs := upd s.ioRegs i (v % 2 ^ 8) }

/-- `GameBoyEmulator::updateLCDControl`: decode LCDC bits. -/
def updateLCDControl (s : St) : St :=
  { s with
    ppuEnabled := (s.ioRegs 0x40 % 2 ^ 8) &&& 0x80 ≠ 0
    ppuWindowEnabled := (s.ioRegs 0x40 % 2 ^ 8) &&& 0x20 ≠ 0
    ppuSpritesEnabled := (s.ioRegs 0x40 % 2 ^ 8) &&& 0x02 ≠ 0
    ppuBackgroundEnabled := (s.ioRegs 0x40 % 2 ^ 8) &&& 0x01 ≠ 0 }

/-- `GameBoyEmulator::updateLCDStatus`: LY=LYC coincidence bit and the
STAT interrupt request. -/
def updateLCDStatus (s : St) : St :=
  if s.ppuEnabled then
    if s.graphics.ly = s.graphics.lyc then
      let stat := ((s.graphics.stat % 2 ^ 8) ||| 0x04) % 2 ^ 8
      let s := { s with graphics := { s.graphics with stat := stat } }
      if stat &&& 0x40 ≠ 0 then
        { s with interrupts :=
            { s.interrupts with
              flags := ((s.interrupts.flags % 2 ^ 8) ||| 0x02) % 2 ^ 8 } }
      else s
    else
      { s with graphics :=
          { s.graphics with stat := (s.graphics.stat % 2 ^ 8) &&& 0xFB } }
  else s

/-- `GameBoyEmulator::updateScroll`. -/
def updateScroll (s : St) : St :=
  { s with graphics :=
      { s.graphics with scx := s.ioRegs 0x43 % 2 ^ 8, scy := s.ioRegs 0x42 % 2 ^ 8 } }

/-- `GameBoyEmulator::updateWindowPosition`. -/
def updateWindowPosition (s : St) : St :=
  { s with graphics :=
      { s.graphics with wx := s.ioRegs 0x4B % 2 ^ 8, wy := s.ioRegs 0x4A % 2 ^ 8 } }

/-- `GameBoyEmulator::updatePalettes`. -/
def updatePalettes (s : St) : St :=
  { s with graphics :=
      { s.graphics with
        bgp := s.ioRegs 0x47 % 2 ^ 8
        obp0 := s.ioRegs 0x48 % 2 ^ 8
        obp1 := s.ioRegs 0x49 % 2 ^ 8 } }

/-- `GameBoyEmulator::updateTileData` — a `TODO` stub in the source
(empty body). -/
def updateTileData (s : St) : St := s

/-- `GameBoyEmulator::updateOAM` — a `TODO` stub in the source
(empty body). -/
def updateOAM (s : St) : St := s

/-- `GameBoyEmulator::processDMA`: latch an OAM DMA request. -/
def processDMA (s : St) : St :=
  let source := ((s.ioRegs 0x46 % 2 ^ 8) <<< 8) % 2 ^ 16
  { s with dma :=
      { active := true, source := source, destination := 0xFE00
        length := 0xA0, remaining := 0xA0 } }

/-- `GameBoyEmulator::updateTimerControl`. -/
def updateTimerControl (s : St) : St :=
  { s with
    timerEnabled := (s.ioRegs 0x07 % 2 ^ 8) &&& 0x04 ≠ 0
    timerClock := (s.ioRegs 0x07 % 2 ^ 8) &&& 0x03 }

/-- `GameBoyEmulator::updateInterruptFlags`. -/
def updateInterruptFlags (s : St) : St :=
  { s with interrupts :=
      { s.interrupts with flags := (s.ioRegs 0x0F % 2 ^ 8) &&& 0x1F } }

/-- `GameBoyEmulator::updateJoypad`. -/
def updateJoypad (s : St) : St :=
  let joypad := s.ioRegs 0x00 % 2 ^ 8
  let joypad :=
    if joypad &&& 0x10 = 0 then
      (joypad &&& 0xF0) ||| ((s.inputPad.buttons % 2 ^ 8) &&& 0x0F)
    else if joypad &&& 0x20 = 0 then
      (joypad &&& 0xF0) ||| ((s.inputPad.directions % 2 ^ 8) &&& 0x0F)
    else joypad
  ioStore s 0x00 joypad

/-- `GameBoyEmulator::updateSerial` — a `TODO` stub in the source
(empty body). -/
def updateSerial (s : St) : St := s

/-- `GameBoyEmulator::writeIO`: dispatch a store to the I/O register
file, invoking the register's side effect. -/
def writeIO (s : St) (address value : Nat) : St :=
  match address with
  | 0x00 => updateJoypad (ioStore s 0x00 value)
  | 0x01 => updateSerial (ioStore s 0x01 value)
  | 0x02 => updateSerial (ioStore s 0x02 value)
  | 0x04 => ioStore s 0x04 0
  | 0x05 => ioStore s 0x05 value
  | 0x06 => ioStore s 0x06 value
  | 0x07 => updateTimerControl (ioStore s 0x07 value)
  | 0x0F => updateInterruptFlags (ioStore s 0x0F value)
  | 0x40 => updateLCDControl (ioStore s 0x40 value)
  | 0x41 =>
      updateLCDStatus
        (ioStore s 0x41 (((s.ioRegs 0x41 % 2 ^ 8) &&& 0x07) ||| (value &&& 0xF8)))
  | 0x42 => updateScroll (ioStore s 0x42 value)
  | 0x43 => updateScroll (ioStore s 0x43 value)
  | 0x44 => ioStore s 0x44 0
  | 0x45 => updateLCDStatus (ioStore s 0x45 value)
  | 0x46 => processDMA (ioStore s 0x46 value)
  | 0x47 => updatePalettes (ioStore s 0x47 value)
  | 0x48 => updatePalettes (ioStore s 0x48 value)
  | 0x49 => updatePalettes (ioStore s 0x49 value)
  | 0x4A => updateWindowPosition (ioStore s 0x4A value)
  | 0x4B => updateWindowPosition (ioStore s 0x4B value)
  | _ => ioStore s address value

/-- `GameBoyEmulator::readMemory(uint16_t)`: the banked bus read.  The
echo region recurses at `address - 0x2000` exactly as the source does. -/
def readMem (s : St) (address : Nat) : Nat :=
  if address < 0x4000 then s.romBank0 address % 2 ^ 8
  else if address < 0x8000 then s.romBankN (address - 0x4000) % 2 ^ 8
  else if address < 0xA000 then s.vram (address - 0x8000) % 2 ^ 8
  else if address < 0xC000 then s.externalRam (address - 0xA000) % 2 ^ 8
  else if address < 0xD000 then s.wramBank0 (address - 0xC000) % 2 ^ 8
  else if address < 0xE000 then s.wramBankN (address - 0xD000) % 2 ^ 8
  else if address < 0xFE00 then readMem s (address - 0x2000)
  else if address < 0xFEA0 then s.oam (address - 0xFE00) % 2 ^ 8
  else if address < 0xFF00 then 0
  else if address < 0xFF80 then s.ioRegs (address - 0xFF00) % 2 ^ 8
  else if address < 0xFFFF then s.hram (address - 0xFF80) % 2 ^ 8
  else s.interrupts.enable % 2 ^ 8
termination_by address
decreasing_by omega

/-- `GameBoyEmulator::writeMemory(uint16_t)`: the banked bus write.
ROM and the unused gap discard; the echo region recurses. -/
def writeMem (s : St) (address value : Nat) : St :=
  if address < 0x8000 then s
  else if address < 0xA000 then
    updateTileData { s with vram := upd s.vram (address - 0x8000) (value % 2 ^ 8) }
  else if address < 0xC000 then
    if s.ramEnabled then
      { s with externalRam := upd s.externalRam (address - 0xA000) (value % 2 ^ 8) }
    else s
  else if address < 0xD000 then
    { s with wramBank0 := upd s.wramBank0 (address - 0xC000) (value % 2 ^ 8) }
  else if address < 0xE000 then
    { s with wramBankN := upd s.wramBankN (address - 0xD000) (value % 2 ^ 8) }
  else if address < 0xFE00 then writeMem s (address - 0x2000) value
  else if address < 0xFEA0 then
    updateOAM { s with oam := upd s.oam (address - 0xFE00) (value % 2 ^ 8) }
  else if address < 0xFF00 then s
  else if address < 0xFF80 then writeIO s (address - 0xFF00) value
  else if address < 0xFFFF then
    { s with hram := upd s.hram (address - 0xFF80) (value % 2 ^ 8) }
  else
    { s with interrupts := { s.interrupts with enable := value % 2 ^ 8 } }
termination_by address
decreasing_by omega

/-- Modelled from the spec: `readWord` is called by
`executeInstruction` for the 16-bit immediate and indirect operands
but its body is in no source file.  Per §3 the bus exposes 16-bit
views of byte pairs; the Game Boy bus is little-endian, so the word at
`a` is low byte at `a`, high byte at `a + 1` (16-bit address
arithmetic). -/
def readWord (s : St) (address : Nat) : Nat :=
  readMem s address + readMem s ((address + 1) % 2 ^ 16) * 2 ^ 8

/-- Modelled from the spec: `writeWord`, the little-endian inverse of
`readWord` (low byte first), likewise absent from the sources. -/
def writeWord (s : St) (address value : Nat) : St :=
  let s := writeMem s address (value % 2 ^ 8)
  writeMem s ((address + 1) % 2 ^ 16) (value % 2 ^ 16 / 2 ^ 8)

/-! ### CPU interpreter (`GameBoyEmulator.cpp` lines 128–404) -/

/-- Store the program counter (16-bit). -/
def withPC (s : St) (v : Nat) : St :=
  { s with registers := { s.registers with pc := v % 2 ^ 16 } }

/-- Store the stack pointer (16-bit). -/
def withSP (s : St) (v : Nat) : St :=
  { s with registers := { s.registers with sp := v % 2 ^ 16 } }

/-- Store register `a` (byte). -/
def withA (s : St) (v : Nat) : St :=
  { s with registers := { s.registers with a := v % 2 ^ 8 } }

/-- Store register `b` (byte). -/
def withB (s : St) (v : Nat) : St :=
  { s with registers := { s.registers with b := v % 2 ^ 8 } }

/-- Store register `c` (byte). -/
def withC (s : St) (v : Nat) : St :=
  { s with registers := { s.registers with c := v % 2 ^ 8 } }

/-- Store register `d` (byte). -/
def withD (s : St) (v : Nat) : St :=
  { s with registers := { s.registers with d := v % 2 ^ 8 } }

/-- Store register `e` (byte). -/
def withE (s : St) (v : Nat) : St :=
  { s with registers := { s.registers with e := v % 2 ^ 8 } }

/-- Store register `h` (byte). -/
def withH (s : St) (v : Nat) : St :=
  { s with registers := { s.registers with h := v % 2 ^ 8 } }

/-- Store register `l` (byte). -/
def withL (s : St) (v : Nat) : St :=
  { s with registers := { s.registers with l := v % 2 ^ 8 } }

/-- Store the `bc` pair. -/
def withBC (s : St) (v : Nat) : St := { s with registers := s.registers.setBC v }

/-- Store the `de` pair. -/
def withDE (s : St) (v : Nat) : St := { s with registers := s.registers.setDE v }

/-- Store the `hl` pair. -/
def withHL (s : St) (v : Nat) : St := { s with registers := s.registers.setHL v }

/-- Relative-jump target: `pc += static_cast<int8_t>(offset) + 1` with
16-bit wraparound (`offset` is the fetched byte). -/
def jrDest (pc off : Nat) : Nat :=
  if off < 0x80 then (pc + off + 1) % 2 ^ 16
  else (pc + off + 1 + 2 ^ 16 - 0x100) % 2 ^ 16

/-- The opcode dispatch of `GameBoyEmulator::executeInstruction`,
applied after the fetch already advanced `pc` past the opcode byte.
Returns the new state together with the values written to the error
log (`std::cerr`) during the step; only the `default` arm logs, and it
prints just the offending opcode. -/
def execOp (op : Nat) (s : St) : St × List Nat :=
  match op with
  | 0x00 => (s, [])
  | 0x01 =>
      let s := withBC s (readWord s s.registers.pc)
      (withPC s (s.registers.pc + 2), [])
  | 0x02 => (writeMem s s.registers.bc s.registers.a, [])
  | 0x03 => (withBC s ((s.registers.bc + 1) % 2 ^ 16), [])
  | 0x04 => let (r, s) := inc s s.registers.b; (withB s r, [])
  | 0x05 => let (r, s) := dec s s.registers.b; (withB s r, [])
  | 0x06 =>
      let v := readMem s s.registers.pc
      (withB (withPC s (s.registers.pc + 1)) v, [])
  | 0x07 => let (r, s) := rlc s s.registers.a; (withA s r, [])
  | 0x08 =>
      let s := writeWord s (readWord s s.registers.pc) s.registers.sp
      (withPC s (s.registers.pc + 2), [])
  | 0x09 => let (r, s) := add16 s s.registers.hl s.registers.bc; (withHL s r, [])
  | 0x0A => (withA s (readMem s s.registers.bc), [])
  | 0x0B => (withBC s ((s.registers.bc + 2 ^ 16 - 1) % 2 ^ 16), [])
  | 0x0C => let (r, s) := inc s s.registers.c; (withC s r, [])
  | 0x0D => let (r, s) := dec s s.registers.c; (withC s r, [])
  | 0x0E =>
      let v := readMem s s.registers.pc
      (withC (withPC s (s.registers.pc + 1)) v, [])
  | 0x0F => let (r, s) := rrc s s.registers.a; (withA s r, [])
  | 0x10 => (s, [])
  | 0x11 =>
      let s := withDE s (readWord s s.registers.pc)
      (withPC s (s.registers.pc + 2), [])
  | 0x12 => (writeMem s s.registers.de s.registers.a, [])
  | 0x13 => (withDE s ((s.registers.de + 1) % 2 ^ 16), [])
  | 0x14 => let (r, s) := inc s s.registers.d; (withD s r, [])
  | 0x15 => let (r, s) := dec s s.registers.d; (withD s r, [])
  | 0x16 =>
      let v := readMem s s.registers.pc
      (withD (withPC s (s.registers.pc + 1)) v, [])
  | 0x17 => let (r, s) := rl s s.registers.a; (withA s r, [])
  | 0x18 => (withPC s (jrDest s.registers.pc (readMem s s.registers.pc)), [])
  | 0x19 => let (r, s) := add16 s s.registers.hl s.registers.de; (withHL s r, [])
  | 0x1A => (withA s (readMem s s.registers.de), [])
  | 0x1B => (withDE s ((s.registers.de + 2 ^ 16 - 1) % 2 ^ 16), [])
  | 0x1C => let (r, s) := inc s s.registers.e; (withE s r, [])
  | 0x1D => let (r, s) := dec s s.registers.e; (withE s r, [])
  | 0x1E =>
      let v := readMem s s.registers.pc
      (withE (withPC s (s.registers.pc + 1)) v, [])
  | 0x1F => let (r, s) := rr s s.registers.a; (withA s r, [])
  | 0x20 =>
      if !getZeroFlag s then
        (withPC s (jrDest s.registers.pc (readMem s s.registers.pc)), [])
      else (withPC s (s.registers.pc + 1), [])
  | 0x21 =>
      let s := withHL s (readWord s s.registers.pc)
      (withPC s (s.registers.pc + 2), [])
  | 0x22 =>
      let hl := s.registers.hl
      (withHL (writeMem s hl s.registers.a) ((hl + 1) % 2 ^ 16), [])
  | 0x23 => (withHL s ((s.registers.hl + 1) % 2 ^ 16), [])
  | 0x24 => let (r, s) := inc s s.registers.h; (withH s r, [])
  | 0x25 => let (r, s) := dec s s.registers.h; (withH s r, [])
  | 0x26 =>
      let v := readMem s s.registers.pc
      (withH (withPC s (s.registers.pc + 1)) v, [])
  | 0x27 => (daa s, [])
  | 0x28 =>
      if getZeroFlag s then
        (withPC s (jrDest s.registers.pc (readMem s s.registers.pc)), [])
      else (withPC s (s.registers.pc + 1), [])
  | 0x29 => let (r, s) := add16 s s.registers.hl s.registers.hl; (withHL s r, [])
  | 0x2A =>
      let hl := s.registers.hl
      (withHL (withA s (readMem s hl)) ((hl + 1) % 2 ^ 16), [])
  | 0x2B => (withHL s ((s.registers.hl + 2 ^ 16 - 1) % 2 ^ 16), [])
  | 0x2C => let (r, s) := inc s s.registers.l; (withL s r, [])
  | 0x2D => let (r, s) := dec s s.registers.l; (withL s r, [])
  | 0x2E =>
      let v := readMem s s.registers.pc
      (withL (withPC s (s.registers.pc + 1)) v, [])
  | 0x2F =>
      let s := withA s ((s.registers.a % 2 ^ 8) ^^^ 0xFF)
      (setHalfCarryFlag true (setSubtractFlag true s), [])
  | 0x30 =>
      if !getCarryFlag s then
        (withPC s (jrDest s.registers.pc (readMem s s.registers.pc)), [])
      else (withPC s (s.registers.pc + 1), [])
  | 0x31 =>
      let s := withSP s (readWord s s.registers.pc)
      (withPC s (s.registers.pc + 2), [])
  | 0x32 =>
      let hl := s.registers.hl
      (withHL (writeMem s hl s.registers.a) ((hl + 2 ^ 16 - 1) % 2 ^ 16), [])
  | 0x33 => (withSP s ((s.registers.sp + 1) % 2 ^ 16), [])
  | 0x34 =>
      let (r, s1) := inc s (readMem s s.registers.hl)
      (writeMem s1 s1.registers.hl r, [])
  | 0x35 =>
      let (r, s1) := dec s (readMem s s.registers.hl)
      (writeMem s1 s1.registers.hl r, [])
  | 0x36 =>
      let v := readMem s s.registers.pc
      let s := withPC s (s.registers.pc + 1)
      (writeMem s s.registers.hl v, [])
  | 0x37 =>
      (setHalfCarryFlag false (setSubtractFlag false (setCarryFlag true s)), [])
  | 0x38 =>
      if getCarryFlag s then
        (withPC s (jrDest s.registers.pc (readMem s s.registers.pc)), [])
      else (withPC s (s.registers.pc + 1), [])
  | 0x39 => let (r, s) := add16 s s.registers.hl s.registers.sp; (withHL s r, [])
  | 0x3A =>
      let hl := s.registers.hl
      (withHL (withA s (readMem s hl)) ((hl + 2 ^ 16 - 1) % 2 ^ 16), [])
  | 0x3B => (withSP s ((s.registers.sp + 2 ^ 16 - 1) % 2 ^ 16), [])
  | 0x3C => let (r, s) := inc s s.registers.a; (withA s r, [])
  | 0x3D => let (r, s) := dec s s.registers.a; (withA s r, [])
  | 0x3E =>
      let v := readMem s s.registers.pc
      (withA (withPC s (s.registers.pc + 1)) v, [])
  | 0x3F =>
      (setHalfCarryFlag false
        (setSubtractFlag false (setCarryFlag (!getCarryFlag s) s)), [])
  | 0x40 => (withB s s.registers.b, [])
  | 0x41 => (withB s s.registers.c, [])
  | 0x42 => (withB s s.registers.d, [])
  | 0x43 => (withB s s.registers.e, [])
  | 0x44 => (withB s s.registers.h, [])
  | 0x45 => (withB s s.registers.l, [])
  | 0x46 => (withB s (readMem s s.registers.hl), [])
  | 0x47 => (withB s s.registers.a, [])
  | 0x48 => (withC s s.registers.b, [])
  | 0x49 => (withC s s.registers.c, [])
  | 0x4A => (withC s s.registers.d, [])
  | 0x4B => (withC s s.registers.e, [])
  | 0x4C => (withC s s.registers.h, [])
  | 0x4D => (withC s s.registers.l, [])
  | 0x4E => (withC s (readMem s s.registers.hl), [])
  | 0x4F => (withC s s.registers.a, [])
  | _ => (s, [op])

/-- `GameBoyEmulator::executeInstruction`: fetch the opcode byte at
`pc`, post-increment `pc`, then dispatch.  The second component is the
step's error-log output. -/
def executeInstruction (s : St) : St × List Nat :=
  let op := readMem s s.registers.pc
  execOp op (withPC s (s.registers.pc + 1))

/-! ### Pixel pipeline (`GameBoyEmulator.cpp` lines 714–1017) -/

/-- Pointwise update of the sprite array. -/
def updSprite (f : Nat → Sprite) (i : Nat) (sp : Sprite) : Nat → Sprite :=
  fun j => if j = i then sp else f j

/-- `GameBoyEmulator::setPixel`: bounds-checked frame-buffer store
(`x`/`y` are C `int`s). -/
def setPixel (s : St) (x y : Int) (color : Nat) : St :=
  if 0 ≤ x ∧ x < 160 ∧ 0 ≤ y ∧ y < 144 then
    { s with frameBuffer := upd s.frameBuffer (y * 160 + x).toNat (color % 2 ^ 8) }
  else s

/-- `GameBoyEmulator::getPixel`: bounds-checked frame-buffer load,
returning 0 out of range. -/
def getPixel (s : St) (x y : Int) : Nat :=
  if 0 ≤ x ∧ x < 160 ∧ 0 ≤ y ∧ y < 144 then
    s.frameBuffer (y * 160 + x).toNat % 2 ^ 8
  else 0

/-- `GameBoyEmulator::getTilePixel`: decode one 2-bit pixel from a
tile row (callers only pass `x`, `y` in `0..7`). -/
def getTilePixel (s : St) (tileAddr x y : Nat) : Nat :=
  let byte1 := readMem s ((tileAddr + y * 2) % 2 ^ 16)
  let byte2 := readMem s ((tileAddr + y * 2 + 1) % 2 ^ 16)
  let bit1 := (byte1 >>> (7 - x)) &&& 1
  let bit2 := (byte2 >>> (7 - x)) &&& 1
  (bit2 <<< 1) ||| bit1

/-- `GameBoyEmulator::getPaletteColor`. -/
def getPaletteColor (palette color : Nat) : Nat :=
  (palette >>> (color * 2)) &&& 0x03

/-- One iteration of the `findSpritesForScanline` loop; the
`spriteCount < 10` loop condition is re-checked each iteration. -/
def findSpritesStep (s : St) (i : Nat) : St :=
  if s.spriteCount < 10 then
    let spriteAddr := 0xFE00 + i * 4
    let y : Int := (readMem s spriteAddr : Int) - 16
    if y ≤ (s.graphics.ly % 2 ^ 8 : Int) ∧ y + 8 > (s.graphics.ly % 2 ^ 8 : Int) then
      { s with
        sprites := updSprite s.sprites s.spriteCount
          { y := y
            x := (readMem s (spriteAddr + 1) : Int) - 8
            tile := readMem s (spriteAddr + 2)
            attributes := readMem s (spriteAddr + 3) }
        spriteCount := s.spriteCount + 1 }
    else s
  else s

/-- `GameBoyEmulator::findSpritesForScanline`: select up to 10 sprites
overlapping the current scanline, in table order. -/
def findSpritesForScanline (s : St) : St :=
  (List.range 40).foldl findSpritesStep { s with spriteCount := 0 }

/-- `GameBoyEmulator::renderBackground`: sample the active tile map
with scroll wraparound for the 160 pixels of the scanline. -/
def renderBackground (s : St) : St :=
  let scrollY := s.graphics.scy % 2 ^ 8
  let scrollX := s.graphics.scx % 2 ^ 8
  let tileMapAddr := if (s.ioRegs 0x40 % 2 ^ 8) &&& 0x08 ≠ 0 then 0x9C00 else 0x9800
  let tileDataAddr := if (s.ioRegs 0x40 % 2 ^ 8) &&& 0x10 ≠ 0 then 0x8000 else 0x8800
  (List.range 160).foldl
    (fun s x =>
      let ly := s.graphics.ly % 2 ^ 8
      let tileX := (scrollX + x) / 8
      let tileY := (scrollY + ly) / 8
      let tileAddr := (tileMapAddr + tileY * 32 + tileX) % 2 ^ 16
      let tileNum := readMem s tileAddr
      let tileOffset := (tileDataAddr + tileNum * 16) % 2 ^ 16
      let pixel := getTilePixel s tileOffset ((scrollX + x) % 8) ((scrollY + ly) % 8)
      setPixel s x ly pixel)
    s

/-- `GameBoyEmulator::renderWindow`: overlay window tiles from the
configured window origin. -/
def renderWindow (s : St) : St :=
  if s.graphics.wx % 2 ^ 8 > 166 ∨ s.graphics.wy % 2 ^ 8 > 143 then s
  else
    let tileMapAddr := if (s.ioRegs 0x40 % 2 ^ 8) &&& 0x40 ≠ 0 then 0x9C00 else 0x9800
    let tileDataAddr := if (s.ioRegs 0x40 % 2 ^ 8) &&& 0x10 ≠ 0 then 0x8000 else 0x8800
    (List.range 160).foldl
      (fun s x =>
        let wx : Int := s.graphics.wx % 2 ^ 8
        let ly := s.graphics.ly % 2 ^ 8
        if (x : Int) + 7 < wx then s
        else
          let nx := ((x : Int) - (wx - 7)).toNat
          let tileAddr := (tileMapAddr + ly / 8 * 32 + nx / 8) % 2 ^ 16
          let tileNum := readMem s tileAddr
          let tileOffset := (tileDataAddr + tileNum * 16) % 2 ^ 16
          setPixel s x ly (getTilePixel s tileOffset (nx % 8) (ly % 8)))
      s

/-- `GameBoyEmulator::renderSprites`: composite the collected sprites
with flips, palette selection and the background-priority rule. -/
def renderSprites (s : St) : St :=
  (List.range s.spriteCount).foldl
    (fun s i =>
      let sprite := s.sprites i
      let tileOffset := (0x8000 + sprite.tile % 2 ^ 8 * 16) % 2 ^ 16
      let flipX := (sprite.attributes % 2 ^ 8) &&& 0x20 ≠ 0
      let flipY := (sprite.attributes % 2 ^ 8) &&& 0x40 ≠ 0
      let priority := (sprite.attributes % 2 ^ 8) &&& 0x80 ≠ 0
      let palette :=
        if (sprite.attributes % 2 ^ 8) &&& 0x10 ≠ 0 then s.graphics.obp1 % 2 ^ 8
        else s.graphics.obp0 % 2 ^ 8
      (List.range 8).foldl
        (fun s (y : Nat) =>
          (List.range 8).foldl
            (fun s (x : Nat) =>
              let px : Int := sprite.x + (if flipX then 7 - (x : Int) else x)
              let py : Int :=
                (s.graphics.ly % 2 ^ 8 : Int) - sprite.y +
                  (if flipY then 7 - (y : Int) else y)
              if 0 ≤ px ∧ px < 160 ∧ 0 ≤ py ∧ py < 144 then
                let pixel :=
                  getTilePixel s tileOffset (if flipX then 7 - x else x)
                    (if flipY then 7 - y else y)
                if pixel ≠ 0 then
                  if ¬priority ∨ getPixel s px py = 0 then
                    setPixel s px py (getPaletteColor palette pixel)
                  else s
                else s
              else s)
            s)
        s)
    s

/-- `GameBoyEmulator::renderScanline`: dispatch on the current PPU
mode (a no-op when the pipeline is disabled or in a blank mode). -/
def renderScanline (s : St) : St :=
  if ¬s.ppuEnabled then s
  else if s.ppuMode = PPUMode.OAM_SCAN then findSpritesForScanline s
  else if s.ppuMode = PPUMode.PIXEL_TRANSFER then
    let s := if s.ppuBackgroundEnabled then renderBackground s else s
    let s := if s.ppuWindowEnabled then renderWindow s else s
    if s.ppuSpritesEnabled then renderSprites s else s
  else s

/-- `GameBoyEmulator::updatePPU` (lines 842–890): one PPU cycle
advance.  The mode transition is checked against the current per-mode
cycle counter first; the counter is incremented at the very end of the
call, after `updateLCDStatus`. -/
def updatePPU (s : St) : St :=
  if ¬s.ppuEnabled then { s with ppuMode := PPUMode.HBLANK }
  else
    let s :=
      match s.ppuMode with
      | PPUMode.OAM_SCAN =>
          if s.ppuCycles ≥ 80 then
            { s with ppuMode := PPUMode.PIXEL_TRANSFER, ppuCycles := 0 }
          else s
      | PPUMode.PIXEL_TRANSFER =>
          if s.ppuCycles ≥ 172 then
            renderScanline { s with ppuMode := PPUMode.HBLANK, ppuCycles := 0 }
          else s
      | PPUMode.HBLANK =>
          if s.ppuCycles ≥ 204 then
            let s :=
              { s with
                ppuCycles := 0
                graphics := { s.graphics with ly := (s.graphics.ly + 1) % 2 ^ 8 } }
            if s.graphics.ly = 144 then
              { s with
                ppuMode := PPUMode.VBLANK
                interrupts :=
                  { s.interrupts with
                    flags := ((s.interrupts.flags % 2 ^ 8) ||| 0x01) % 2 ^ 8 } }
            else { s with ppuMode := PPUMode.OAM_SCAN }
          else s
      | PPUMode.VBLANK =>
          if s.ppuCycles ≥ 456 then
            let s :=
              { s with
                ppuCycles := 0
                graphics := { s.graphics with ly := (s.graphics.ly + 1) % 2 ^ 8 } }
            if s.graphics.ly > 153 then
              { s with
                ppuMode := PPUMode.OAM_SCAN
                graphics := { s.graphics with ly := 0 } }
            else s
          else s
    let s := updateLCDStatus s
    { s with ppuCycles := s.ppuCycles + 1 }

/-! ### Flat-memory operations, reset, ROM and state loading
(`GameBoyEmulator.cpp` lines 23–126) -/

/-- `GameBoyEmulator::initializeRegisters`: zero-initialize, then set
the documented post-boot register values; `gpu` is zero-initialized. -/
def initializeRegisters (s : St) : St :=
  { s with
    registers :=
      { a := 0x01, f := 0xB0, b := 0x00, c := 0x13, d := 0x00, e := 0xD8
        h := 0x01, l := 0x4D, sp := 0xFFFE, pc := 0x0100 }
    gpu := { lcdc := 0, stat := 0, ly := 0 } }

/-- `GameBoyEmulator::reset`: zero-fill the whole flat 64KB memory
image, then `initializeRegisters`.  Nothing else is touched. -/
def reset (s : St) : St :=
  initializeRegisters { s with memory := fun _ => 0 }

/-- The Nintendo logo bytes checked by `validateROM`. -/
def NINTENDO_LOGO : List Nat :=
  [0xCE, 0xED, 0x66, 0x66, 0xCC, 0x0D, 0x00, 0x0B,
   0x03, 0x73, 0x00, 0x83, 0x00, 0x0C, 0x00, 0x0D]

/-- `GameBoyEmulator::validateROM`: minimum size `0x150`, then
`memcmp` of the 16 logo bytes at offset `0x104`. -/
def validateROM (data : List Nat) : Bool :=
  if data.length < 0x150 then false
  else ((data.drop 0x104).take 16).map (· % 2 ^ 8) == NINTENDO_LOGO

/-- `GameBoyEmulator::loadROM`: validate, retain the cartridge image,
and copy its first at-most-32KB prefix into the flat memory. -/
def loadROM (s : St) (data : List Nat) : St × Bool :=
  if ¬validateROM data then (s, false)
  else
    let romSize := min data.length 0x8000
    ({ s with
       cartridgeROM := data
       memory := fun i => if i < romSize then data.getD i 0 % 2 ^ 8 else s.memory i },
     true)

/-- `GameBoyEmulator::readMemory(uint32_t)`: bounds-checked flat read;
out of range throws `std::out_of_range`. -/
def readMemory32 (s : St) (address : Nat) : Except String Nat :=
  if address ≥ 0x10000 then Except.error "Memory address out of bounds"
  else Except.ok (s.memory address % 2 ^ 8)

/-- `GameBoyEmulator::writeMemory(uint32_t)`: bounds-checked flat
write; stores below `0x8000` are discarded. -/
def writeMemory32 (s : St) (address value : Nat) : Except String St :=
  if address ≥ 0x10000 then Except.error "Memory address out of bounds"
  else if address < 0x8000 then Except.ok s
  else Except.ok { s with memory := upd s.memory address (value % 2 ^ 8) }

/-- Overwrite one byte of the register record at its offset in the
persisted layout (fields in declaration order `a f b c d e h l`, then
`sp` and `pc` little-endian, no padding). -/
def applyRegByte (r : Regs) (idx b : Nat) : Regs :=
  match idx with
  | 0 => { r with a := b }
  | 1 => { r with f := b }
  | 2 => { r with b := b }
  | 3 => { r with c := b }
  | 4 => { r with d := b }
  | 5 => { r with e := b }
  | 6 => { r with h := b }
  | 7 => { r with l := b }
  | 8 => { r with sp := r.sp % 2 ^ 16 / 2 ^ 8 * 2 ^ 8 + b }
  | 9 => { r with sp := r.sp % 2 ^ 8 + b * 2 ^ 8 }
  | 10 => { r with pc := r.pc % 2 ^ 16 / 2 ^ 8 * 2 ^ 8 + b }
  | 11 => { r with pc := r.pc % 2 ^ 8 + b * 2 ^ 8 }
  | _ => r

/-- Overwrite a prefix of the register record with the bytes a
(possibly short) stream read delivered. -/
def applyRegBytes (r : Regs) (bytes : List Nat) : Regs :=
  (List.range bytes.length).foldl
    (fun r i => applyRegByte r i (bytes.getD i 0 % 2 ^ 8)) r

/-- Overwrite one byte of the GPU record (`lcdc`, `stat`, `ly` in
declaration order). -/
def applyGpuByte (g : Gpu) (idx b : Nat) : Gpu :=
  match idx with
  | 0 => { g with lcdc := b }
  | 1 => { g with stat := b }
  | 2 => { g with ly := b }
  | _ => g

/-- Overwrite a prefix of the GPU record. -/
def applyGpuBytes (g : Gpu) (bytes : List Nat) : Gpu :=
  (List.range bytes.length).foldl
    (fun g i => applyGpuByte g i (bytes.getD i 0 % 2 ^ 8)) g

/-- `GameBoyEmulator::loadState` (lines 77–91).  `none` models a file
that failed to open (the only checked condition).  A `some stream`
models an opened file holding `stream` bytes; each `istream::read`
transfers as many bytes as remain (a short transfer puts the stream in
a fail state, after which later reads transfer nothing), and the
function returns `true` without ever consulting the stream state. -/
def loadState (s : St) (file : Option (List Nat)) : St × Bool :=
  match file with
  | none => (s, false)
  | some stream =>
      let m1 := stream.take 0x10000
      let memory1 : Nat → Nat :=
        fun i => if i < m1.length then m1.getD i 0 % 2 ^ 8 else s.memory i
      let fail1 : Bool := stream.length < 0x10000
      let rest1 := stream.drop 0x10000
      let regs2 := applyRegBytes s.registers (if fail1 then [] else rest1.take 12)
      let fail2 : Bool := fail1 || rest1.length < 12
      let rest2 := rest1.drop 12
      let gpu3 := applyGpuBytes s.gpu (if fail2 then [] else rest2.take 3)
      ({ s with memory := memory1, registers := regs2, gpu := gpu3 }, true)

end GB

namespace SPU

/-- One SPU voice (struct `Voice` in `SPU.hpp`). -/
structure Voice where
  volume : Nat
  pitch : Nat
  startAddr : Nat
  currentAddr : Nat
  adsr1 : Nat
  adsr2 : Nat
  adsrVolume : Nat
  keyOn : Bool
  keyOff : Bool
  deriving Repr, DecidableEq

/-- SPU state (`SPU.hpp` members).  `spuRam` is modelled as a function
with `ramSize` recording `spuRam.size()` (`0x80000` for PS1, double
for PS2). -/
structure St where
  voices : List Voice
  spuRam : Nat → Nat
  ramSize : Nat
  audioBuffer : List Int
  mainVolume : Nat
  reverbVolume : Nat
  transferAddress : Nat
  reverbEnabled : Bool
  irqEnabled : Bool
  transferMode : Bool
  isPS2Mode : Bool

/-- Interpret a `Nat` in `[0, 2^16)` as a signed 16-bit sample value
(`int16_t` cast). -/
def toInt16 (n : Nat) : Int :=
  let m : Nat := n % 2 ^ 16
  if m < 2 ^ 15 then (m : Int) else (m : Int) - 2 ^ 16

/-- Truncate an `Int` to `int16_t` (the `static_cast<int16_t>` of an
`int32_t` value). -/
def wrap16 (x : Int) : Int :=
  let m : Int := x.emod (2 ^ 16)
  if m < 2 ^ 15 then m else m - 2 ^ 16

/-- `SPU::updateADSR`: attack while key-on is latched (rate = high
byte of `adsr1`, saturating at `0x7FFF`), otherwise release while
key-off is latched (rate = low byte of `adsr2`, clamped at zero). -/
def updateADSR (voice : Voice) : Voice :=
  if voice.keyOn then
    { voice with
      adsrVolume := min (voice.adsrVolume + voice.adsr1 % 2 ^ 16 / 2 ^ 8) 0x7FFF }
  else if voice.keyOff then
    { voice with adsrVolume := voice.adsrVolume - voice.adsr2 % 2 ^ 8 }
  else voice

/-- `SPU::processVoice` (body after the bounds guard): update the
envelope, fetch and scale one sample, and advance the voice's
address by the pitch-derived step.  Returns the updated voice and the
sample pushed to the audio buffer. -/
def processVoice (ram : Nat → Nat) (ramSize : Nat) (voice : Voice) :
    Voice × Int :=
  let voice := updateADSR voice
  let addr := voice.currentAddr &&& (ramSize - 1)
  let sample := toInt16 ((ram (addr + 1) % 2 ^ 8) * 2 ^ 8 + ram addr % 2 ^ 8)
  let sample := wrap16 ((sample * (voice.adsrVolume : Int)).fdiv (2 ^ 15))
  let sample := wrap16 ((sample * ((voice.volume % 2 ^ 16 : Nat) : Int)).fdiv (2 ^ 15))
  ({ voice with
     currentAddr := voice.currentAddr + voice.pitch % 2 ^ 16 / 2 ^ 8 * 2 },
   sample)

/-- The voice loop of `SPU::step`: process each keyed-on voice in
order, collecting the samples appended to the audio buffer. -/
def stepVoices (ram : Nat → Nat) (ramSize : Nat) :
    List Voice → List Voice × List Int
  | [] => ([], [])
  | v :: rest =>
      let p :=
        if v.keyOn then
          ((processVoice ram ramSize v).1, [(processVoice ram ramSize v).2])
        else (v, [])
      let r := stepVoices ram ramSize rest
      (p.1 :: r.1, p.2 ++ r.2)

/-- `SPU::mixOutput`: rescale every sample in the buffer by the main
volume (the early return on an empty buffer is the identity there). -/
def mixOutput (buffer : List Int) (mainVolume : Nat) : List Int :=
  if buffer.isEmpty then buffer
  else buffer.map (fun sample => wrap16 ((sample * ((mainVolume % 2 ^ 16 : Nat) : Int)).fdiv (2 ^ 15)))

/-- `SPU::processReverb`: add a 2048-sample-delayed, attenuated copy
of the buffer into itself (reading from the unmodified copy). -/
def processReverb (buffer : List Int) (reverbVolume : Nat) (enabled : Bool) :
    List Int :=
  if ¬enabled ∨ buffer.isEmpty then buffer
  else
    buffer.mapIdx (fun i sample =>
      if i ≥ 2048 then
        wrap16 (sample + wrap16 ((buffer.getD (i - 2048) 0 * ((reverbVolume % 2 ^ 16 : Nat) : Int)).fdiv (2 ^ 15)))
      else sample)

/-- `SPU::step`: advance every keyed-on voice, mix, apply reverb when
enabled (`checkIRQ` has an empty body). -/
def step (s : St) : St :=
  let r := stepVoices s.spuRam s.ramSize s.voices
  let buffer := s.audioBuffer ++ r.2
  let buffer := mixOutput buffer s.mainVolume
  let buffer :=
    if s.reverbEnabled then processReverb buffer s.reverbVolume s.reverbEnabled
    else buffer
  { s with voices := r.1, audioBuffer := buffer }

end SPU

namespace GB

/-! ### Helper lemmas about the flag bits -/

theorem testBit_mod256 (x i : Nat) (h : i < 8) :
    (x % 256).testBit i = x.testBit i := by
  have h256 : (256 : Nat) = 2 ^ 8 := rfl
  rw [h256, Nat.testBit_mod_two_pow]
  simp [h]

theorem getZeroFlag_setZeroFlag (b : Bool) (s : St) :
    getZeroFlag (setZeroFlag b s) = b := by
  cases b <;>
    simp [getZeroFlag, setZeroFlag, testBit_mod256, Nat.testBit_lor,
      Nat.testBit_land, (by decide : Nat.testBit 128 7 = true),
      (by decide : Nat.testBit 0x7F 7 = false)]

theorem getSubtractFlag_setZeroFlag (b : Bool) (s : St) :
    getSubtractFlag (setZeroFlag b s) = getSubtractFlag s := by
  cases b <;>
    simp [getSubtractFlag, setZeroFlag, testBit_mod256, Nat.testBit_lor,
      Nat.testBit_land, (by decide : Nat.testBit 128 6 = false),
      (by decide : Nat.testBit 0x7F 6 = true)]

theorem getHalfCarryFlag_setZeroFlag (b : Bool) (s : St) :
    getHalfCarryFlag (setZeroFlag b s) = getHalfCarryFlag s := by
  cases b <;>
    simp [getHalfCarryFlag, setZeroFlag, testBit_mod256, Nat.testBit_lor,
      Nat.testBit_land, (by decide : Nat.testBit 128 5 = false),
      (by decide : Nat.testBit 0x7F 5 = true)]

theorem getCarryFlag_setZeroFlag (b : Bool) (s : St) :
    getCarryFlag (setZeroFlag b s) = getCarryFlag s := by
  cases b <;>
    simp [getCarryFlag, setZeroFlag, testBit_mod256, Nat.testBit_lor,
      Nat.testBit_land, (by decide : Nat.testBit 128 4 = false),
      (by decide : Nat.testBit 0x7F 4 = true)]

theorem getZeroFlag_setSubtractFlag (b : Bool) (s : St) :
    getZeroFlag (setSubtractFlag b s) = getZeroFlag s := by
  cases b <;>
    simp [getZeroFlag, setSubtractFlag, testBit_mod256, Nat.testBit_lor,
      Nat.testBit_land, (by decide : Nat.testBit 64 7 = false),
      (by decide : Nat.testBit 0xBF 7 = true)]

theorem getSubtractFlag_setSubtractFlag (b : Bool) (s : St) :
    getSubtractFlag (setSubtractFlag b s) = b := by
  cases b <;>
    simp [getSubtractFlag, setSubtractFlag, testBit_mod256, Nat.testBit_lor,
      Nat.testBit_land, (by decide : Nat.testBit 64 6 = true),
      (by decide : Nat.testBit 0xBF 6 = false)]

theorem getHalfCarryFlag_setSubtractFlag (b : Bool) (s : St) :
    getHalfCarryFlag (setSubtractFlag b s) = getHalfCarryFlag s := by
  cases b <;>
    simp [getHalfCarryFlag, setSubtractFlag, testBit_mod256, Nat.testBit_lor,
      Nat.testBit_land, (by decide : Nat.testBit 64 5 = false),
      (by decide : Nat.testBit 0xBF 5 = true)]

theorem getCarryFlag_setSubtractFlag (b : Bool) (s : St) :
    getCarryFlag (setSubtractFlag b s) = getCarryFlag s := by
  cases b <;>
    simp [getCarryFlag, setSubtractFlag, testBit_mod256, Nat.testBit_lor,
      Nat.testBit_land, (by decide : Nat.testBit 64 4 = false),
      (by decide : Nat.testBit 0xBF 4 = true)]

theorem getZeroFlag_setHalfCarryFlag (b : Bool) (s : St) :
    getZeroFlag (setHalfCarryFlag b s) = getZeroFlag s := by
  cases b <;>
    simp [getZeroFlag, setHalfCarryFlag, testBit_mod256, Nat.testBit_lor,
      Nat.testBit_land, (by decide : Nat.testBit 32 7 = false),
      (by decide : Nat.testBit 0xDF 7 = true)]

theorem getSubtractFlag_setHalfCarryFlag (b : Bool) (s : St) :
    getSubtractFlag (setHalfCarryFlag b s) = getSubtractFlag s := by
  cases b <;>
    simp [getSubtractFlag, setHalfCarryFlag, testBit_mod256, Nat.testBit_lor,
      Nat.testBit_land, (by decide : Nat.testBit 32 6 = false),
      (by decide : Nat.testBit 0xDF 6 = true)]

theorem getHalfCarryFlag_setHalfCarryFlag (b : Bool) (s : St) :
    getHalfCarryFlag (setHalfCarryFlag b s) = b := by
  cases b <;>
    simp [getHalfCarryFlag, setHalfCarryFlag, testBit_mod256, Nat.testBit_lor,
      Nat.testBit_land, (by decide : Nat.testBit 32 5 = true),
      (by decide : Nat.testBit 0xDF 5 = false)]

theorem getCarryFlag_setHalfCarryFlag (b : Bool) (s : St) :
    getCarryFlag (setHalfCarryFlag b s) = getCarryFlag s := by
  cases b <;>
    simp [getCarryFlag, setHalfCarryFlag, testBit_mod256, Nat.testBit_lor,
      Nat.testBit_land, (by decide : Nat.testBit 32 4 = false),
      (by decide : Nat.testBit 0xDF 4 = true)]

theorem getZeroFlag_setCarryFlag (b : Bool) (s : St) :
    getZeroFlag (setCarryFlag b s) = getZeroFlag s := by
  cases b <;>
    simp [getZeroFlag, setCarryFlag, testBit_mod256, Nat.testBit_lor,
      Nat.testBit_land, (by decide : Nat.testBit 16 7 = false),
      (by decide : Nat.testBit 0xEF 7 = true)]

theorem getSubtractFlag_setCarryFlag (b : Bool) (s : St) :
    getSubtractFlag (setCarryFlag b s) = getSubtractFlag s := by
  cases b <;>
    simp [getSubtractFlag, setCarryFlag, testBit_mod256, Nat.testBit_lor,
      Nat.testBit_land, (by decide : Nat.testBit 16 6 = false),
      (by decide : Nat.testBit 0xEF 6 = true)]

theorem getHalfCarryFlag_setCarryFlag (b : Bool) (s : St) :
    getHalfCarryFlag (setCarryFlag b s) = getHalfCarryFlag s := by
  cases b <;>
    simp [getHalfCarryFlag, setCarryFlag, testBit_mod256, Nat.testBit_lor,
      Nat.testBit_land, (by decide : Nat.testBit 16 5 = false),
      (by decide : Nat.testBit 0xEF 5 = true)]

theorem getCarryFlag_setCarryFlag (b : Bool) (s : St) :
    getCarryFlag (setCarryFlag b s) = b := by
  cases b <;>
    simp [getCarryFlag, setCarryFlag, testBit_mod256, Nat.testBit_lor,
      Nat.testBit_land, (by decide : Nat.testBit 16 4 = true),
      (by decide : Nat.testBit 0xEF 4 = false)]

/-- A concrete all-zero emulator state, used as the base state for
witnesses and counterexamples. -/
def st0 : St :=
  { memory := fun _ => 0
    cartridgeROM := []
    registers :=
      { a := 0, f := 0, b := 0, c := 0, d := 0, e := 0, h := 0, l := 0
        sp := 0, pc := 0 }
    gpu := { lcdc := 0, stat := 0, ly := 0 }
    romBank0 := fun _ => 0
    romBankN := fun _ => 0
    vram := fun _ => 0
    externalRam := fun _ => 0
    wramBank0 := fun _ => 0
    wramBankN := fun _ => 0
    oam := fun _ => 0
    ioRegs := fun _ => 0
    hram := fun _ => 0
    ramEnabled := false
    interrupts := { flags := 0, enable := 0 }
    graphics :=
      { ly := 0, lyc := 0, stat := 0, scx := 0, scy := 0, wx := 0, wy := 0
        bgp := 0, obp0 := 0, obp1 := 0 }
    dma := { active := false, source := 0, destination := 0, length := 0, remaining := 0 }
    inputPad := { buttons := 0, directions := 0 }
    timerEnabled := false
    timerClock := 0
    ppuEnabled := false
    ppuWindowEnabled := false
    ppuSpritesEnabled := false
    ppuBackgroundEnabled := false
    ppuMode := PPUMode.OAM_SCAN
    ppuCycles := 0
    frameBuffer := fun _ => 0
    sprites := fun _ => { y := 0, x := 0, tile := 0, attributes := 0 }
    spriteCount := 0 }

/-- C3: for every 8-bit operand, `inc` returns `(operand + 1) mod 256`
and afterwards the half-carry flag equals `(operand & 0x0F) == 0x0F`,
the zero flag equals `result == 0`, the subtract flag is cleared, and
the carry flag is unchanged from before the operation. -/
theorem C3_inc_flags (s : St) (v : Nat) (hv : v < 2 ^ 8) :
    (inc s v).1 = (v + 1) % 2 ^ 8 ∧
    getZeroFlag (inc s v).2 = ((v + 1) % 2 ^ 8 == 0) ∧
    getSubtractFlag (inc s v).2 = false ∧
    getHalfCarryFlag (inc s v).2 = ((v &&& 0x0F) == 0x0F) ∧
    getCarryFlag (inc s v).2 = getCarryFlag s := by
  unfold inc
  refine ⟨rfl, ?_, ?_, ?_, ?_⟩ <;>
    simp [getZeroFlag_setHalfCarryFlag, getZeroFlag_setSubtractFlag,
      getZeroFlag_setZeroFlag, getSubtractFlag_setHalfCarryFlag,
      getSubtractFlag_setSubtractFlag, getHalfCarryFlag_setHalfCarryFlag,
      getCarryFlag_setHalfCarryFlag, getCarryFlag_setSubtractFlag,
      getCarryFlag_setZeroFlag]

/-- Witness for C3 at the operand `0x0F` (half-carry boundary). -/
theorem C3_inc_flags_witness :
    (0x0F : Nat) < 2 ^ 8 ∧
    ((inc st0 0x0F).1 = (0x0F + 1) % 2 ^ 8 ∧
     getZeroFlag (inc st0 0x0F).2 = ((0x0F + 1) % 2 ^ 8 == 0) ∧
     getSubtractFlag (inc st0 0x0F).2 = false ∧
     getHalfCarryFlag (inc st0 0x0F).2 = ((0x0F &&& 0x0F) == 0x0F) ∧
     getCarryFlag (inc st0 0x0F).2 = getCarryFlag st0) :=
  ⟨by decide, C3_inc_flags st0 0x0F (by decide)⟩

/-- C4: for every pair of 16-bit operands, `add16` returns
`(a + b) mod 2^16` and afterwards carry = `a + b > 0xFFFF`,
half-carry = carry-out of bit 11 of the low 12 bits, and the subtract
flag is cleared. -/
theorem C4_add16_flags (s : St) (a b : Nat) (ha : a < 2 ^ 16) (hb : b < 2 ^ 16) :
    (add16 s a b).1 = (a + b) % 2 ^ 16 ∧
    getCarryFlag (add16 s a b).2 = decide (a + b > 0xFFFF) ∧
    getHalfCarryFlag (add16 s a b).2 =
      decide ((a &&& 0x0FFF) + (b &&& 0x0FFF) > 0x0FFF) ∧
    getSubtractFlag (add16 s a b).2 = false := by
  unfold add16
  refine ⟨rfl, ?_, ?_, ?_⟩ <;>
    simp [getCarryFlag_setCarryFlag, getHalfCarryFlag_setCarryFlag,
      getHalfCarryFlag_setHalfCarryFlag, getSubtractFlag_setCarryFlag,
      getSubtractFlag_setHalfCarryFlag, getSubtractFlag_setSubtractFlag]

/-- Witness for C4 at `a = 0x0FFF`, `b = 0xF001` (16-bit carry out,
bit-11 carry out). -/
theorem C4_add16_flags_witness :
    (0x0FFF : Nat) < 2 ^ 16 ∧ (0xF001 : Nat) < 2 ^ 16 ∧
    ((add16 st0 0x0FFF 0xF001).1 = (0x0FFF + 0xF001) % 2 ^ 16 ∧
     getCarryFlag (add16 st0 0x0FFF 0xF001).2 = decide (0x0FFF + 0xF001 > 0xFFFF) ∧
     getHalfCarryFlag (add16 st0 0x0FFF 0xF001).2 =
       decide ((0x0FFF &&& 0x0FFF) + (0xF001 &&& 0x0FFF) > 0x0FFF) ∧
     getSubtractFlag (add16 st0 0x0FFF 0xF001).2 = false) :=
  ⟨by decide, by decide, C4_add16_flags st0 0x0FFF 0xF001 (by decide) (by decide)⟩

/-- C5: every address in the echo region `[0xE000, 0xFDFF]` reads the
same byte as `address - 0x2000`, and a write there followed by a read
at `address - 0x2000` returns the written byte. -/
theorem C5_echo_region (s : St) (a v : Nat) (h1 : 0xE000 ≤ a)
    (h2 : a ≤ 0xFDFF) (hv : v < 2 ^ 8) :
    readMem s a = readMem s (a - 0x2000) ∧
    readMem (writeMem s a v) (a - 0x2000) = v := by
  constructor
  · rw [readMem]
    rw [if_neg (by omega), if_neg (by omega), if_neg (by omega),
      if_neg (by omega), if_neg (by omega), if_neg (by omega),
      if_pos (by omega)]
  · rw [writeMem]
    rw [if_neg (by omega), if_neg (by omega), if_neg (by omega),
      if_neg (by omega), if_neg (by omega), if_pos (by omega)]
    by_cases hc : a - 0x2000 < 0xD000
    · rw [writeMem]
      rw [if_neg (by omega), if_neg (by omega), if_neg (by omega),
        if_pos (by omega)]
      rw [readMem]
      rw [if_neg (by omega), if_neg (by omega), if_neg (by omega),
        if_neg (by omega), if_pos (by omega)]
      simp [upd]
      omega
    · rw [writeMem]
      rw [if_neg (by omega), if_neg (by omega), if_neg (by omega),
        if_neg (by omega), if_pos (by omega)]
      rw [readMem]
      rw [if_neg (by omega), if_neg (by omega), if_neg (by omega),
        if_neg (by omega), if_neg (by omega), if_pos (by omega)]
      simp [upd]
      omega

/-- Witness for C5 at address `0xE123`, value `0x5A`. -/
theorem C5_echo_region_witness :
    (0xE000 : Nat) ≤ 0xE123 ∧ (0xE123 : Nat) ≤ 0xFDFF ∧ (0x5A : Nat) < 2 ^ 8 ∧
    (readMem st0 0xE123 = readMem st0 (0xE123 - 0x2000) ∧
     readMem (writeMem st0 0xE123 0x5A) (0xE123 - 0x2000) = 0x5A) :=
  ⟨by decide, by decide, by decide,
   C5_echo_region st0 0xE123 0x5A (by decide) (by decide) (by decide)⟩

/-- C6: a write to any address in `[0x0000, 0x8000)` is silently
discarded — the state is unchanged, so every later read from that
range returns the value it returned before the write. -/
theorem C6_rom_immutable (s : St) (a b v : Nat) (ha : a < 0x8000)
    (hb : b < 0x8000) :
    writeMem s a v = s ∧ readMem (writeMem s a v) b = readMem s b := by
  have h : writeMem s a v = s := by
    rw [writeMem]
    rw [if_pos (by omega)]
  exact ⟨h, by rw [h]⟩

/-- Witness for C6 at write address `0x1234`, read address `0x1234`. -/
theorem C6_rom_immutable_witness :
    (0x1234 : Nat) < 0x8000 ∧ (0x1234 : Nat) < 0x8000 ∧
    (writeMem st0 0x1234 0x77 = st0 ∧
     readMem (writeMem st0 0x1234 0x77) 0x1234 = readMem st0 0x1234) :=
  ⟨by decide, by decide,
   C6_rom_immutable st0 0x1234 0x1234 0x77 (by decide) (by decide)⟩

/-- C9: `reset` is idempotent — applying it twice from any state
yields exactly the state obtained by applying it once (memory image,
CPU registers, GPU registers and the retained cartridge data
included). -/
theorem C9_reset_idempotent (s : St) : reset (reset s) = reset s := rfl

/-- C10: after `reset`, every in-range flat-memory read returns 0 even
when a ROM was successfully loaded beforehand — the 64KB image is
zero-filled and is not restored from the retained `cartridgeROM`
(which is kept as loaded). -/
theorem C10_reset_clears_rom (s : St) (data : List Nat) (a : Nat)
    (h : (loadROM s data).2 = true) (ha : a < 0x10000) :
    readMemory32 (reset (loadROM s data).1) a = Except.ok 0 ∧
    (reset (loadROM s data).1).cartridgeROM = data := by
  constructor
  · unfold readMemory32
    rw [if_neg (by omega)]
    rfl
  · unfold loadROM at h ⊢
    by_cases hh : validateROM data
    · simp [hh, reset, initializeRegisters]
    · simp [hh] at h

/-- A concrete ROM image that passes `validateROM` (correct size and
Nintendo logo bytes at offset `0x104`). -/
def validRom : List Nat :=
  List.replicate 0x104 0 ++ NINTENDO_LOGO ++ List.replicate 0x3C 0

set_option maxRecDepth 100000 in
/-- Witness for C10 with the valid ROM image and address 0. -/
theorem C10_reset_clears_rom_witness :
    (loadROM st0 validRom).2 = true ∧ (0 : Nat) < 0x10000 ∧
    (readMemory32 (reset (loadROM st0 validRom).1) 0 = Except.ok 0 ∧
     (reset (loadROM st0 validRom).1).cartridgeROM = validRom) :=
  ⟨by decide, by decide, C10_reset_clears_rom st0 validRom 0 (by decide) (by decide)⟩

/-! ### C7: unknown-opcode handling -/

/-- Every value the banked bus read returns is a byte. -/
theorem readMem_lt (s : St) (a : Nat) : readMem s a < 2 ^ 8 := by
  induction a using Nat.strong_induction_on with
  | _ a ih =>
    rw [readMem]
    by_cases h1 : a < 0x4000
    · rw [if_pos h1]; exact Nat.mod_lt _ (by norm_num)
    rw [if_neg h1]
    by_cases h2 : a < 0x8000
    · rw [if_pos h2]; exact Nat.mod_lt _ (by norm_num)
    rw [if_neg h2]
    by_cases h3 : a < 0xA000
    · rw [if_pos h3]; exact Nat.mod_lt _ (by norm_num)
    rw [if_neg h3]
    by_cases h4 : a < 0xC000
    · rw [if_pos h4]; exact Nat.mod_lt _ (by norm_num)
    rw [if_neg h4]
    by_cases h5 : a < 0xD000
    · rw [if_pos h5]; exact Nat.mod_lt _ (by norm_num)
    rw [if_neg h5]
    by_cases h6 : a < 0xE000
    · rw [if_pos h6]; exact Nat.mod_lt _ (by norm_num)
    rw [if_neg h6]
    by_cases h7 : a < 0xFE00
    · rw [if_pos h7]; exact ih _ (by omega)
    rw [if_neg h7]
    by_cases h8 : a < 0xFEA0
    · rw [if_pos h8]; exact Nat.mod_lt _ (by norm_num)
    rw [if_neg h8]
    by_cases h9 : a < 0xFF00
    · rw [if_pos h9]; norm_num
    rw [if_neg h9]
    by_cases h10 : a < 0xFF80
    · rw [if_pos h10]; exact Nat.mod_lt _ (by norm_num)
    rw [if_neg h10]
    by_cases h11 : a < 0xFFFF
    · rw [if_pos h11]; exact Nat.mod_lt _ (by norm_num)
    rw [if_neg h11]; exact Nat.mod_lt _ (by norm_num)

/-- Every opcode in `[0x50, 0xFF]` falls through to the `default` arm:
the state is returned unchanged and exactly the opcode value is
logged. -/
theorem execOp_default (op : Nat) (h1 : 0x50 ≤ op) (h2 : op < 2 ^ 8)
    (s : St) : execOp op s = (s, [op]) := by
  norm_num at h2
  interval_cases op <;> rfl

/-- C7 (amended): for every state whose fetched opcode has no
implemented handler (`0x50 ≤ opcode ≤ 0xFF`), one CPU step logs the
offending opcode (the address is not part of the log message),
advances the program counter past the opcode byte, leaves every other
component of the machine state unchanged, and does not abort. -/
theorem C7_unknown_opcode (s : St)
    (h : 0x50 ≤ readMem s s.registers.pc) :
    executeInstruction s =
      (withPC s (s.registers.pc + 1), [readMem s s.registers.pc]) := by
  unfold executeInstruction
  exact execOp_default _ h (readMem_lt s _) _

/-- A concrete state whose whole ROM bank reads as the unimplemented
opcode `0x50`, with the program counter at `0x1234`. -/
def cs7 : St :=
  { st0 with
    romBank0 := fun _ => 0x50
    registers := { st0.registers with pc := 0x1234 } }

/-- C7 counterexample: the claim says the log holds the offending
opcode *and its address*; at `cs7` the step's log is exactly
`[0x50]` — the address `0x1234` is not logged. -/
theorem C7_unknown_opcode_counterexample :
    (executeInstruction cs7).2 = [0x50] ∧
    (0x1234 : Nat) ∉ (executeInstruction cs7).2 := by
  have hread : readMem cs7 0x1234 = 0x50 := by
    rw [readMem]
    simp [cs7, st0]
  have hlog : (executeInstruction cs7).2 = [0x50] := by
    unfold executeInstruction
    show (execOp (readMem cs7 0x1234) _).2 = [0x50]
    rw [hread]
    rfl
  refine ⟨hlog, ?_⟩
  rw [hlog]
  simp

/-- Witness for C7 at the state `cs7`. -/
theorem C7_unknown_opcode_witness :
    0x50 ≤ readMem cs7 cs7.registers.pc ∧
    executeInstruction cs7 =
      (withPC cs7 (cs7.registers.pc + 1), [readMem cs7 cs7.registers.pc]) := by
  have hread : readMem cs7 0x1234 = 0x50 := by
    rw [readMem]
    simp [cs7, st0]
  have h : 0x50 ≤ readMem cs7 cs7.registers.pc := by
    show (0x50 : Nat) ≤ readMem cs7 0x1234
    rw [hread]
  exact ⟨h, C7_unknown_opcode cs7 h⟩

/-! ### C1: the PPU scanline cycle budget -/

/-- The C1 start state: PPU enabled, scanline 0, mode `OAM_SCAN`,
per-mode cycle counter 0. -/
def ppuStart : St := { st0 with ppuEnabled := true }

/-- A state at the end of an HBLANK whose increment reaches scanline
144 (`ly = 143`, cycle counter at the 204 budget). -/
def hblank143 : St :=
  { st0 with
    ppuEnabled := true
    ppuMode := PPUMode.HBLANK
    ppuCycles := 204
    graphics := { st0.graphics with ly := 143 } }

/-- A canonical mid-scenario PPU state: mode `m`, per-mode cycle
counter `c`, scanline `l`, STAT register `stv`, everything else as in
`ppuStart`. -/
def ppuState (m : PPUMode) (c l stv : Nat) : St :=
  { st0 with
    ppuEnabled := true
    ppuMode := m
    ppuCycles := c
    graphics := { st0.graphics with ly := l, stat := stv } }

theorem ppuStart_eq : ppuStart = ppuState PPUMode.OAM_SCAN 0 0 0 := rfl

/-- Chain single-step lemmas along a phase of the PPU state machine. -/
theorem iterate_chain {g : Nat → St} {b : Nat}
    (hstep : ∀ c, c < b → updatePPU (g c) = g (c + 1)) :
    ∀ k a, a + k ≤ b → updatePPU^[k] (g a) = g (a + k) := by
  intro k
  induction k with
  | zero => intro a _; simp
  | succ k ih =>
      intro a h
      rw [Function.iterate_succ_apply, hstep a (by omega), ih (a + 1) (by omega)]
      congr 1
      omega

theorem step_oam (c : Nat) (hc : c < 80) :
    updatePPU (ppuState PPUMode.OAM_SCAN c 0 4) =
      ppuState PPUMode.OAM_SCAN (c + 1) 0 4 := by
  unfold updatePPU ppuState updateLCDStatus st0
  simp [show ¬(80 ≤ c) from by omega, (by decide : (4 : Nat) &&& 64 = 0)]

theorem step_pt (c : Nat) (hc : c < 172) :
    updatePPU (ppuState PPUMode.PIXEL_TRANSFER c 0 4) =
      ppuState PPUMode.PIXEL_TRANSFER (c + 1) 0 4 := by
  unfold updatePPU ppuState updateLCDStatus st0
  simp [show ¬(172 ≤ c) from by omega, (by decide : (4 : Nat) &&& 64 = 0)]

theorem step_hb (c : Nat) (hc : c < 204) :
    updatePPU (ppuState PPUMode.HBLANK c 0 4) =
      ppuState PPUMode.HBLANK (c + 1) 0 4 := by
  unfold updatePPU ppuState updateLCDStatus st0
  simp [show ¬(204 ≤ c) from by omega, (by decide : (4 : Nat) &&& 64 = 0)]

/-- Invocation 1: the first tick only sets the LY=LYC coincidence bit
and advances the counter. -/
theorem ppu_step_0 :
    updatePPU (ppuState PPUMode.OAM_SCAN 0 0 0) =
      ppuState PPUMode.OAM_SCAN 1 0 4 := rfl

/-- Invocation 81: the `OAM_SCAN` → `PIXEL_TRANSFER` transition fires
once the counter has counted past the 80-cycle budget. -/
theorem ppu_step_80 :
    updatePPU (ppuState PPUMode.OAM_SCAN 80 0 4) =
      ppuState PPUMode.PIXEL_TRANSFER 1 0 4 := rfl

/-- Invocation 253: the `PIXEL_TRANSFER` → `HBLANK` transition. -/
theorem ppu_step_252 :
    updatePPU (ppuState PPUMode.PIXEL_TRANSFER 172 0 4) =
      ppuState PPUMode.HBLANK 1 0 4 := rfl

/-- Invocation 457: the `HBLANK` → `OAM_SCAN` transition increments
the scanline. -/
theorem ppu_step_456 :
    updatePPU (ppuState PPUMode.HBLANK 204 0 4) =
      ppuState PPUMode.OAM_SCAN 1 1 0 := rfl

theorem ppu_at_80 :
    updatePPU^[80] ppuStart = ppuState PPUMode.OAM_SCAN 80 0 4 := by
  have h1 : updatePPU^[80] ppuStart =
      updatePPU^[79] (updatePPU ppuStart) := by
    rw [show (80 : Nat) = 79 + 1 from rfl, Function.iterate_add_apply,
      Function.iterate_one]
  rw [h1, ppuStart_eq, ppu_step_0,
    iterate_chain (fun c hc => step_oam c hc) 79 1 (by omega)]

theorem ppu_at_81 :
    updatePPU^[81] ppuStart = ppuState PPUMode.PIXEL_TRANSFER 1 0 4 := by
  rw [show (81 : Nat) = 1 + 80 from rfl, Function.iterate_add_apply,
    Function.iterate_one, ppu_at_80, ppu_step_80]

theorem ppu_at_252 :
    updatePPU^[252]
      ppuStart = ppuState PPUMode.PIXEL_TRANSFER 172 0 4 := by
  rw [show (252 : Nat) = 171 + 81 from rfl, Function.iterate_add_apply,
    ppu_at_81, iterate_chain (fun c hc => step_pt c hc) 171 1 (by omega)]

theorem ppu_at_253 :
    updatePPU^[253] ppuStart = ppuState PPUMode.HBLANK 1 0 4 := by
  rw [show (253 : Nat) = 1 + 252 from rfl, Function.iterate_add_apply,
    Function.iterate_one, ppu_at_252, ppu_step_252]

theorem ppu_at_456 :
    updatePPU^[456] ppuStart = ppuState PPUMode.HBLANK 204 0 4 := by
  rw [show (456 : Nat) = 203 + 253 from rfl, Function.iterate_add_apply,
    ppu_at_253, iterate_chain (fun c hc => step_hb c hc) 203 1 (by omega)]

theorem ppu_at_457 :
    updatePPU^[457] ppuStart = ppuState PPUMode.OAM_SCAN 1 1 0 := by
  rw [show (457 : Nat) = 1 + 456 from rfl, Function.iterate_add_apply,
    Function.iterate_one, ppu_at_456, ppu_step_456]

/-- C1 counterexample: after exactly 456 invocations of `updatePPU`
from the start state the machine is still in `HBLANK` on scanline 0 —
not on scanline 1 in `OAM_SCAN` as the claim states.  (The counter is
incremented after the transition check, so each phase consumes one
extra invocation: the scanline completes at invocation 457.) -/
theorem C1_counterexample :
    ¬((updatePPU^[456] ppuStart).graphics.ly = 1 ∧
      (updatePPU^[456] ppuStart).ppuMode = PPUMode.OAM_SCAN) ∧
    (updatePPU^[456] ppuStart).graphics.ly = 0 ∧
    (updatePPU^[456] ppuStart).ppuMode = PPUMode.HBLANK := by
  rw [ppu_at_456]
  refine ⟨?_, rfl, rfl⟩
  rintro ⟨h, -⟩
  exact absurd h (by decide)

/-- C1 (amended): from the start state the PPU enters
`PIXEL_TRANSFER` at invocation 81 (not 80), `HBLANK` 172 invocations
later at invocation 253, and completes the scanline at invocation 457
(not 456), where the scanline index is 1 and the mode is back to
`OAM_SCAN`; and at an HBLANK transition whose incremented scanline
equals 144 the machine enters `VBLANK` and raises the vblank-pending
interrupt bit instead of returning to `OAM_SCAN`. -/
theorem C1_scanline_budget :
    (updatePPU^[80] ppuStart).ppuMode = PPUMode.OAM_SCAN ∧
    (updatePPU^[81] ppuStart).ppuMode = PPUMode.PIXEL_TRANSFER ∧
    (updatePPU^[252] ppuStart).ppuMode = PPUMode.PIXEL_TRANSFER ∧
    (updatePPU^[253] ppuStart).ppuMode = PPUMode.HBLANK ∧
    (updatePPU^[457] ppuStart).graphics.ly = 1 ∧
    (updatePPU^[457] ppuStart).ppuMode = PPUMode.OAM_SCAN ∧
    (updatePPU hblank143).graphics.ly = 144 ∧
    (updatePPU hblank143).ppuMode = PPUMode.VBLANK ∧
    (updatePPU hblank143).interrupts.flags = 1 := by
  rw [ppu_at_80, ppu_at_81, ppu_at_252, ppu_at_253, ppu_at_457]
  refine ⟨rfl, rfl, rfl, rfl, rfl, rfl, by decide, by decide, by decide⟩

end GB

namespace GB

/-! ### C2: state loading from a truncated stream -/

/-- C2 (code bug): loading from an opened but truncated stream — here
a file holding a single byte `0xAA` — returns `true` (not `false`) and
partially overwrites the previous in-memory state: the first memory
byte becomes `0xAA` while registers and GPU records keep their old
values.  The source never checks the stream state after its reads. -/
theorem C2_loadState_truncated :
    (loadState st0 (some [0xAA])).2 = true ∧
    (loadState st0 (some [0xAA])).1.memory 0 = 0xAA ∧
    st0.memory 0 = 0 ∧
    (loadState st0 (some [0xAA])).1.registers = st0.registers ∧
    (loadState st0 (some [0xAA])).1.gpu = st0.gpu := by
  refine ⟨rfl, by decide, rfl, by decide, by decide⟩

end GB


namespace SPU

/-! ### C8: envelope behaviour under `step` -/

/-- The attack rate used by `updateADSR`: the high byte of `adsr1`. -/
def attackRate (v : Voice) : Nat := v.adsr1 % 2 ^ 16 / 2 ^ 8

/-- The rate-derived number of attack ticks needed to saturate the
envelope from `v.adsrVolume` to full scale (`0x7FFF`). -/
def attackTicks (v : Voice) : Nat :=
  (0x7FFF - v.adsrVolume + attackRate v - 1) / attackRate v

/-- The per-step effect of the `step` voice loop on one voice: a
keyed-on voice is advanced by `processVoice`, every other voice is
skipped. -/
def voiceAdvance (ram : Nat → Nat) (ramSize : Nat) (v : Voice) : Voice :=
  if v.keyOn then (processVoice ram ramSize v).1 else v

theorem stepVoices_fst (ram : Nat → Nat) (ramSize : Nat) (vs : List Voice) :
    (stepVoices ram ramSize vs).1 = vs.map (voiceAdvance ram ramSize) := by
  induction vs with
  | nil => rfl
  | cons v rest ih =>
      by_cases h : v.keyOn <;> simp [stepVoices, voiceAdvance, h, ih]

theorem step_voices (s : St) :
    (step s).voices = s.voices.map (voiceAdvance s.spuRam s.ramSize) :=
  stepVoices_fst s.spuRam s.ramSize s.voices

theorem step_spuRam (s : St) : (step s).spuRam = s.spuRam := rfl

theorem step_ramSize (s : St) : (step s).ramSize = s.ramSize := rfl

theorem stepN_spuRam (s : St) (k : Nat) : (step^[k] s).spuRam = s.spuRam := by
  induction k with
  | zero => rfl
  | succ k ih => rw [Function.iterate_succ_apply', step_spuRam, ih]

theorem stepN_ramSize (s : St) (k : Nat) : (step^[k] s).ramSize = s.ramSize := by
  induction k with
  | zero => rfl
  | succ k ih => rw [Function.iterate_succ_apply', step_ramSize, ih]

theorem stepN_voices (s : St) (k : Nat) :
    (step^[k] s).voices =
      s.voices.map ((voiceAdvance s.spuRam s.ramSize)^[k]) := by
  induction k with
  | zero => simp
  | succ k ih =>
      rw [Function.iterate_succ_apply', step_voices, stepN_spuRam,
        stepN_ramSize, ih, List.map_map, ← Function.iterate_succ']

theorem stepN_voice_get (s : St) (k i : Nat) :
    (step^[k] s).voices.get? i =
      (s.voices.get? i).map ((voiceAdvance s.spuRam s.ramSize)^[k]) := by
  rw [stepN_voices, List.get?_map]

theorem voiceAdvance_keyOn (ram : Nat → Nat) (ramSize : Nat) (v : Voice) :
    (voiceAdvance ram ramSize v).keyOn = v.keyOn := by
  by_cases h : v.keyOn <;>
    simp [voiceAdvance, processVoice, updateADSR, h]

theorem voiceAdvance_adsr1 (ram : Nat → Nat) (ramSize : Nat) (v : Voice) :
    (voiceAdvance ram ramSize v).adsr1 = v.adsr1 := by
  by_cases h : v.keyOn <;>
    simp [voiceAdvance, processVoice, updateADSR, h]

theorem voiceAdvance_amp (ram : Nat → Nat) (ramSize : Nat) (v : Voice)
    (h : v.keyOn = true) :
    (voiceAdvance ram ramSize v).adsrVolume =
      min (v.adsrVolume + attackRate v) 0x7FFF := by
  simp [voiceAdvance, processVoice, updateADSR, attackRate, h]

theorem voiceAdvance_fixed (ram : Nat → Nat) (ramSize : Nat) (v : Voice)
    (h : v.keyOn = false) : voiceAdvance ram ramSize v = v := by
  simp [voiceAdvance, h]

theorem voiceAdvanceN_keyOn (ram : Nat → Nat) (ramSize : Nat) (v : Voice)
    (k : Nat) : ((voiceAdvance ram ramSize)^[k] v).keyOn = v.keyOn := by
  induction k with
  | zero => rfl
  | succ k ih => rw [Function.iterate_succ_apply', voiceAdvance_keyOn, ih]

theorem voiceAdvanceN_adsr1 (ram : Nat → Nat) (ramSize : Nat) (v : Voice)
    (k : Nat) : ((voiceAdvance ram ramSize)^[k] v).adsr1 = v.adsr1 := by
  induction k with
  | zero => rfl
  | succ k ih => rw [Function.iterate_succ_apply', voiceAdvance_adsr1, ih]

theorem voiceAdvanceN_amp (ram : Nat → Nat) (ramSize : Nat) (v : Voice)
    (h : v.keyOn = true) (hamp : v.adsrVolume ≤ 0x7FFF) (k : Nat) :
    ((voiceAdvance ram ramSize)^[k] v).adsrVolume =
      min (v.adsrVolume + k * attackRate v) 0x7FFF := by
  induction k with
  | zero =>
      simp only [Function.iterate_zero, id_eq, Nat.zero_mul, Nat.add_zero]
      omega
  | succ k ih =>
      rw [Function.iterate_succ_apply',
        voiceAdvance_amp ram ramSize _
          (by rw [voiceAdvanceN_keyOn]; exact h),
        ih]
      unfold attackRate
      rw [voiceAdvanceN_adsr1, Nat.succ_mul]
      omega

/-- Rounding up by `R` then multiplying recovers at least the
numerator. -/
theorem ceil_mul_ge (n R : Nat) (hR : 1 ≤ R) :
    n ≤ (n + R - 1) / R * R := by
  have h := Nat.div_add_mod (n + R - 1) R
  have h2 : (n + R - 1) % R < R := Nat.mod_lt _ (by omega)
  rw [Nat.mul_comm]
  omega

/-- C8 (amended): for a voice with in-scale envelope amplitude,
(a) while key-on is latched, `k` SPU `step` ticks drive its envelope
amplitude to `min (a₀ + k·R, 0x7FFF)` where `R` is the attack rate
(high byte of `adsr1`) — a monotone climb that (b) reaches full scale
after the rate-derived `attackTicks` count when `R ≥ 1`; but (c) a
keyed-off voice (`keyOn` cleared) is skipped by `step` entirely, so
its amplitude never changes and the release decay never progresses. -/
theorem C8_envelope (s : St) (i k : Nat) (v : Voice)
    (hv : s.voices.get? i = some v) (hamp : v.adsrVolume ≤ 0x7FFF) :
    (v.keyOn = true →
      ((step^[k] s).voices.get? i).map Voice.adsrVolume =
        some (min (v.adsrVolume + k * attackRate v) 0x7FFF)) ∧
    (v.keyOn = true → 1 ≤ attackRate v →
      ((step^[attackTicks v] s).voices.get? i).map Voice.adsrVolume =
        some 0x7FFF) ∧
    (v.keyOn = false →
      ((step^[k] s).voices.get? i).map Voice.adsrVolume =
        some v.adsrVolume) := by
  refine ⟨?_, ?_, ?_⟩
  · intro hOn
    rw [stepN_voice_get, hv]
    simp [voiceAdvanceN_amp _ _ _ hOn hamp]
  · intro hOn hR
    have hge : 0x7FFF - v.adsrVolume ≤ attackTicks v * attackRate v := by
      unfold attackTicks
      exact ceil_mul_ge _ _ hR
    rw [stepN_voice_get, hv]
    simp [voiceAdvanceN_amp _ _ _ hOn hamp]
    omega
  · intro hOff
    rw [stepN_voice_get, hv]
    simp [Function.iterate_fixed (voiceAdvance_fixed _ _ v hOff)]

/-- A voice keyed off from full scale with release rate 5 (low byte of
`adsr2`). -/
def voiceOffFull : Voice :=
  { volume := 0, pitch := 0, startAddr := 0, currentAddr := 0
    adsr1 := 0, adsr2 := 5, adsrVolume := 0x7FFF, keyOn := false, keyOff := true }

/-- An idle voice, as initialized by `SPU::initialize`. -/
def voiceZero : Voice :=
  { volume := 0, pitch := 0, startAddr := 0, currentAddr := 0
    adsr1 := 0, adsr2 := 0, adsrVolume := 0, keyOn := false, keyOff := false }

/-- A PS1-sized SPU (24 voices, 512KB RAM, post-`initialize` globals)
whose voice 0 is `voiceOffFull`. -/
def spuOff : St :=
  { voices := voiceOffFull :: List.replicate 23 voiceZero
    spuRam := fun _ => 0
    ramSize := 0x80000
    audioBuffer := []
    mainVolume := 0x3FFF
    reverbVolume := 0
    transferAddress := 0
    reverbEnabled := false
    irqEnabled := false
    transferMode := false
    isPS2Mode := false }

/-- C8 counterexample: a voice keyed off from full scale with a
nonzero release rate (5) does not reach zero amplitude within the
release-rate-derived tick count (`⌈0x7FFF / 5⌉ = 6554`): `step` skips
voices whose `keyOn` is cleared, so the amplitude is still `0x7FFF`
after 6554 ticks — the release path of `updateADSR` is unreachable
from `step`. -/
theorem C8_counterexample :
    ((step^[6554] spuOff).voices.get? 0).map Voice.adsrVolume =
      some 0x7FFF ∧
    ¬((step^[6554] spuOff).voices.get? 0).map Voice.adsrVolume = some 0 := by
  have h : (step^[6554] spuOff).voices.get? 0 = some voiceOffFull := by
    rw [stepN_voice_get]
    rw [show spuOff.voices.get? 0 = some voiceOffFull from rfl]
    show some ((voiceAdvance spuOff.spuRam spuOff.ramSize)^[6554] voiceOffFull) =
      some voiceOffFull
    rw [Function.iterate_fixed (voiceAdvance_fixed _ _ voiceOffFull rfl)]
  rw [h]
  exact ⟨rfl, by simp [voiceOffFull]⟩

/-- A keyed-on voice two rate-steps below full scale (attack rate 2). -/
def voiceW : Voice :=
  { volume := 0, pitch := 0, startAddr := 0, currentAddr := 0
    adsr1 := 0x0200, adsr2 := 0, adsrVolume := 0x7FFD, keyOn := true, keyOff := false }

/-- A one-voice SPU carrying `voiceW`. -/
def spuW : St :=
  { voices := [voiceW]
    spuRam := fun _ => 0
    ramSize := 0x80000
    audioBuffer := []
    mainVolume := 0x3FFF
    reverbVolume := 0
    transferAddress := 0
    reverbEnabled := false
    irqEnabled := false
    transferMode := false
    isPS2Mode := false }

/-- Witness for C8 at `spuW`, voice 0, one tick. -/
theorem C8_envelope_witness :
    spuW.voices.get? 0 = some voiceW ∧
    voiceW.adsrVolume ≤ 0x7FFF ∧
    voiceW.keyOn = true ∧
    1 ≤ attackRate voiceW ∧
    ((step^[1] spuW).voices.get? 0).map Voice.adsrVolume =
      some (min (voiceW.adsrVolume + 1 * attackRate voiceW) 0x7FFF) ∧
    ((step^[attackTicks voiceW] spuW).voices.get? 0).map Voice.adsrVolume =
      some 0x7FFF := by
  have h := C8_envelope spuW 0 1 voiceW rfl (by decide)
  exact ⟨rfl, by decide, rfl, by decide, h.1 rfl, h.2.1 rfl (by decide)⟩

end SPU
